import Mathlib

/-!
Verification of the `catalog/models.py` data model of the django_locallibrary
repository: a shallow embedding of the five Django models (Genre, Language,
Book, BookInstance, Author) and their derived properties, followed by
theorems settling the specification claims about them.
-/

namespace LocalLibrary

/-- A calendar date, as Python's `datetime.date`: compared lexicographically
on (year, month, day). -/
structure Date where
  year : Nat
  month : Nat
  day : Nat
deriving DecidableEq, Repr

/-- Python's `<` on `datetime.date`: lexicographic on (year, month, day). -/
def Date.ltb (a b : Date) : Bool :=
  decide (a.year < b.year) ||
    (decide (a.year = b.year) &&
      (decide (a.month < b.month) ||
        (decide (a.month = b.month) && decide (a.day < b.day))))

/-- Python's `<=` on `datetime.date`. -/
def Date.leb (a b : Date) : Bool :=
  decide (a = b) || Date.ltb a b

/-- `Genre` model: a single `name` CharField (models.py, class Genre). -/
structure Genre where
  name : String
deriving DecidableEq, Repr

/-- `Language` model: a single `name` CharField (models.py, class Language). -/
structure Language where
  name : String
deriving DecidableEq, Repr

/-- `Author` model (models.py, class Author). `id` is the implicit Django
auto primary key; the two date fields are `null=True`, hence `Option`. -/
structure Author where
  id : Nat
  first_name : String
  last_name : String
  date_of_birth : Option Date
  date_of_death : Option Date
deriving DecidableEq, Repr

/-- `Book` model (models.py, class Book). `author` and `language` are
ForeignKeys with `null=True` (`on_delete=SET_NULL`), hence `Option`;
`genre` is a ManyToManyField, embedded as the list `self.genre.all()`. -/
structure Book where
  id : Nat
  title : String
  author : Option Author
  summary : String
  isbn : String
  genre : List Genre
  language : Option Language
deriving DecidableEq, Repr

/-- A `django.contrib.auth` `User`, referenced by `BookInstance.borrower`. -/
structure User where
  id : Nat
  username : String
deriving DecidableEq, Repr

/-- `BookInstance` model (models.py, class BookInstance). `id` is a
UUIDField primary key, embedded as its string form; `book` and `borrower`
are nullable ForeignKeys; `due_back` is a nullable DateField; `status` is
a one-character CharField. -/
structure BookInstance where
  id : String
  book : Option Book
  imprint : String
  due_back : Option Date
  borrower : Option User
  status : String
deriving DecidableEq, Repr

/-- `Genre.__str__`: `return self.name`. -/
def Genre.str (g : Genre) : String :=
  g.name

/-- `Language.__str__`: `return self.name`. -/
def Language.str (l : Language) : String :=
  l.name

/-- `Book.__str__`: `return self.title`. -/
def Book.str (b : Book) : String :=
  b.title

/-- `Book.display_genre`:
`return ', '.join(genre.name for genre in self.genre.all()[:3])`. -/
def Book.display_genre (b : Book) : String :=
  String.intercalate ", " ((b.genre.take 3).map Genre.name)

/-- `Book.get_absolute_url`:
`return reverse('book-detail', args=[str(self.id)])`. The URL resolver
`reverse` is Django framework code, taken as a parameter. -/
def Book.get_absolute_url (reverse : String → List String → String)
    (b : Book) : String :=
  reverse "book-detail" [toString b.id]

/-- `Author.get_absolute_url`:
`return reverse('author-detail', args=[str(self.id)])`. -/
def Author.get_absolute_url (reverse : String → List String → String)
    (a : Author) : String :=
  reverse "author-detail" [toString a.id]

/-- `Author.__str__`: `return '{0}, {1}'.format(self.last_name, self.first_name)`. -/
def Author.str (a : Author) : String :=
  a.last_name ++ ", " ++ a.first_name

/-- `BookInstance.__str__`:
`return '{0} ({1})'.format(self.id, self.book.title)`.
When `self.book` is null the attribute access `self.book.title`
raises `AttributeError`, embedded as `none`. -/
def BookInstance.str (i : BookInstance) : Option String :=
  match i.book with
  | none => none
  | some b => some (i.id ++ " (" ++ b.title ++ ")")

/-- `BookInstance.is_overdue`:
`if self.due_back and date.today() > self.due_back: return True` else
`return False`. A Python `date` object is always truthy, so the guard
`self.due_back` tests only non-nullness. `date.today()` is passed
explicitly as `today`. -/
def BookInstance.is_overdue (i : BookInstance) (today : Date) : Bool :=
  match i.due_back with
  | none => false
  | some d => Date.ltb d today

/-- `BookInstance.LOAN_STATUS` choices tuple. -/
def LOAN_STATUS : List (String × String) :=
  [("m", "Maintenance"), ("o", "On loan"), ("a", "Available"), ("r", "Reserved")]

/-- The declarative parts of a Django CharField that decide which values
are permitted for it. -/
structure CharFieldDecl where
  max_length : Nat
  choices : Option (List (String × String))
  blank : Bool
  dflt : Option String
deriving DecidableEq, Repr

/-- The declaration of `BookInstance.status`:
`models.CharField(max_length=1, choices=LOAN_STATUS, blank=True, default='m')`. -/
def BookInstance.statusField : CharFieldDecl :=
  { max_length := 1, choices := some LOAN_STATUS, blank := true, dflt := some "m" }

/-- Modelled from the spec: Django's field validation (`Field.validate`,
framework code not in this repository's sources) accepts an empty value
exactly when the field declares `blank=True`, and accepts a non-empty
value of a field with `choices` exactly when it is one of the declared
choice codes. -/
def CharFieldDecl.validValue (f : CharFieldDecl) (v : String) : Bool :=
  if v = "" then
    f.blank
  else
    match f.choices with
    | none => true
    | some cs => cs.any (fun p => decide (p.1 = v))

/-- `BookInstance.Meta.ordering = ["due_back"]`. -/
def BookInstance.metaOrdering : List String :=
  ["due_back"]

/-- `Author.Meta.ordering = ["last_name"]`. -/
def Author.metaOrdering : List String :=
  ["last_name"]

/-- Ascending order on the nullable `due_back` key: SQL sorts nulls before
every value when ascending (SQLite `ORDER BY ... ASC`), and non-null
dates by date order. -/
def dueBackLe (a b : Option Date) : Bool :=
  match a, b with
  | none, _ => true
  | some _, none => false
  | some d, some e => Date.leb d e

/-- Modelled from the spec: a Django queryset with no explicit ordering
returns the rows sorted by `Meta.ordering`; for `BookInstance` that is
ascending `due_back`. -/
def bookInstanceDefaultListing (l : List BookInstance) : List BookInstance :=
  l.mergeSort (fun i j => dueBackLe i.due_back j.due_back)

/-- Modelled from the spec: a Django queryset with no explicit ordering
returns the rows sorted by `Meta.ordering`; for `Author` that is
ascending `last_name`. -/
def authorDefaultListing (l : List Author) : List Author :=
  l.mergeSort (fun a b => decide (a.last_name ≤ b.last_name))

theorem Date.leb_trans (a b c : Date) (hab : Date.leb a b = true)
    (hbc : Date.leb b c = true) : Date.leb a c = true := by
  cases a; cases b; cases c
  simp only [Date.leb, Date.ltb, Date.mk.injEq, Bool.or_eq_true, Bool.and_eq_true,
    decide_eq_true_eq] at *
  omega

theorem Date.leb_total (a b : Date) : (Date.leb a b || Date.leb b a) = true := by
  cases a; cases b
  simp only [Date.leb, Date.ltb, Date.mk.injEq, Bool.or_eq_true, Bool.and_eq_true,
    decide_eq_true_eq]
  omega

theorem dueBackLe_trans (a b c : Option Date) (hab : dueBackLe a b = true)
    (hbc : dueBackLe b c = true) : dueBackLe a c = true := by
  cases a <;> cases b <;> cases c <;> simp [dueBackLe] at *
  exact Date.leb_trans _ _ _ hab hbc

theorem dueBackLe_total (a b : Option Date) : (dueBackLe a b || dueBackLe b a) = true := by
  cases a with
  | none => simp [dueBackLe]
  | some d =>
    cases b with
    | none => simp [dueBackLe]
    | some e =>
      have h := Date.leb_total d e
      rw [Bool.or_eq_true] at h
      simpa [dueBackLe] using h

/-- C1: `is_overdue` returns true iff `due_back` is non-null and the current
date is strictly greater than `due_back`; in particular it is false when
`due_back` is null and false when `due_back` equals the current date. -/
theorem is_overdue_spec (i : BookInstance) (today : Date) :
    (i.is_overdue today = true ↔ ∃ d, i.due_back = some d ∧ Date.ltb d today = true)
    ∧ (i.due_back = none → i.is_overdue today = false)
    ∧ (i.due_back = some today → i.is_overdue today = false) := by
  refine ⟨?_, ?_, ?_⟩
  · cases h : i.due_back with
    | none => simp [BookInstance.is_overdue, h]
    | some d => simp [BookInstance.is_overdue, h]
  · intro h
    simp [BookInstance.is_overdue, h]
  · intro h
    cases today
    simp [BookInstance.is_overdue, h, Date.ltb]

/-- Witness for C1 at a concrete instance with null `due_back`. -/
theorem is_overdue_spec_witness :
    BookInstance.is_overdue ⟨"copy-1", none, "imp", none, none, "m"⟩ ⟨2024, 1, 1⟩ = false :=
  (is_overdue_spec ⟨"copy-1", none, "imp", none, none, "m"⟩ ⟨2024, 1, 1⟩).2.1 rfl

/-- C2: `BookInstance.__str__` returns the id, a space, and the associated
book's title in parentheses, whenever the associated book exists. -/
theorem bookinstance_str_spec (i : BookInstance) (b : Book) (h : i.book = some b) :
    i.str = some (i.id ++ " (" ++ b.title ++ ")") := by
  simp [BookInstance.str, h]

/-- Witness for C2 at a concrete instance. -/
theorem bookinstance_str_spec_witness :
    BookInstance.str
        ⟨"copy-2", some ⟨1, "Dune", none, "s", "isbn", [], none⟩, "imp", none, none, "a"⟩
      = some ("copy-2" ++ " (" ++ "Dune" ++ ")") :=
  bookinstance_str_spec _ ⟨1, "Dune", none, "s", "isbn", [], none⟩ rfl

/-- C3: `BookInstance.__str__` returns normally exactly when `book` is
non-null: on a null `book` the attribute access fails (embedded as `none`),
and on a non-null `book` it returns a string. -/
theorem bookinstance_str_none_on_null_book (i : BookInstance) :
    (i.book = none → i.str = none)
    ∧ (∀ b, i.book = some b → ∃ s, i.str = some s) := by
  constructor
  · intro h
    simp [BookInstance.str, h]
  · intro b h
    refine ⟨i.id ++ " (" ++ b.title ++ ")", ?_⟩
    simp [BookInstance.str, h]

/-- Witness for C3 at a concrete instance with null `book`. -/
theorem bookinstance_str_none_on_null_book_witness :
    BookInstance.str ⟨"copy-3", none, "imp", none, none, "m"⟩ = none :=
  (bookinstance_str_none_on_null_book ⟨"copy-3", none, "imp", none, none, "m"⟩).1 rfl

/-- C4 counterexample: the schema declares `blank=True` on `status`, so the
empty string is a permitted value of the field although it is not one of
the four `LOAN_STATUS` codes. -/
theorem status_blank_counterexample :
    BookInstance.statusField.validValue "" = true
    ∧ ¬ ("" ∈ LOAN_STATUS.map Prod.fst) := by
  decide

/-- C4 (amended): a permitted value of the `status` field is exactly one of
the four `LOAN_STATUS` codes or the empty string (`blank=True`), and the
declared default for a newly created instance is `'m'`. -/
theorem status_field_spec :
    (∀ v : String, BookInstance.statusField.validValue v = true ↔
        (v ∈ LOAN_STATUS.map Prod.fst ∨ v = ""))
    ∧ BookInstance.statusField.dflt = some "m" := by
  constructor
  · intro v
    by_cases h : v = ""
    · subst h
      simp [CharFieldDecl.validValue, BookInstance.statusField]
    · simp only [CharFieldDecl.validValue, BookInstance.statusField, LOAN_STATUS, if_neg h,
        List.any_cons, List.any_nil, List.map_cons, List.map_nil, List.mem_cons,
        List.not_mem_nil, Bool.or_eq_true, Bool.or_false, Bool.false_eq_true,
        decide_eq_true_eq, or_false]
      rw [or_iff_left h]
      constructor
      · rintro (rfl | rfl | rfl | rfl) <;> simp
      · rintro (rfl | rfl | rfl | rfl) <;> simp
  · rfl

/-- Witness for C4's amended theorem at the concrete value `'m'`. -/
theorem status_field_spec_witness :
    BookInstance.statusField.validValue "m" = true :=
  (status_field_spec.1 "m").2 (Or.inl (by decide))

/-- C5: `Book.get_absolute_url` resolves the named route `book-detail` at
the single argument `str(id)`, and `Author.get_absolute_url` resolves the
named route `author-detail` at the single argument `str(id)`, for any URL
resolver `reverse`. -/
theorem get_absolute_url_spec (reverse : String → List String → String)
    (b : Book) (a : Author) :
    Book.get_absolute_url reverse b = reverse "book-detail" [toString b.id]
    ∧ Author.get_absolute_url reverse a = reverse "author-detail" [toString a.id] :=
  ⟨rfl, rfl⟩

/-- C6: `Author.__str__` returns the last name, a comma and a space, then
the first name. -/
theorem author_str_spec (a : Author) :
    a.str = a.last_name ++ ", " ++ a.first_name :=
  rfl

/-- C7: `Genre.__str__`, `Language.__str__` and `Book.__str__` return
exactly the `name`, `name` and `title` fields respectively. -/
theorem simple_str_spec (g : Genre) (l : Language) (b : Book) :
    g.str = g.name ∧ l.str = l.name ∧ b.str = b.title :=
  ⟨rfl, rfl, rfl⟩

/-- C8: `display_genre` joins the names of at most the first three genres
with `", "`: all names when the book has three or fewer genres, and the
empty string when it has none. -/
theorem display_genre_spec (b : Book) :
    Book.display_genre b = String.intercalate ", " ((b.genre.take 3).map Genre.name)
    ∧ (b.genre.length ≤ 3 →
        Book.display_genre b = String.intercalate ", " (b.genre.map Genre.name))
    ∧ (b.genre = [] → Book.display_genre b = "") := by
  refine ⟨rfl, ?_, ?_⟩
  · intro h
    simp [Book.display_genre, List.take_of_length_le h]
  · intro h
    simp only [Book.display_genre, h, List.take_nil, List.map_nil]
    decide

/-- Witness for C8 at a concrete book with two genres. -/
theorem display_genre_spec_witness :
    Book.display_genre ⟨1, "T", none, "s", "i", [⟨"Gothic"⟩, ⟨"Horror"⟩], none⟩
      = String.intercalate ", " (([⟨"Gothic"⟩, ⟨"Horror"⟩] : List Genre).map Genre.name) := by
  have h := (display_genre_spec ⟨1, "T", none, "s", "i", [⟨"Gothic"⟩, ⟨"Horror"⟩], none⟩).2.1
    (by decide)
  simpa using h

/-- C9: listing `BookInstance` rows with no explicit ordering yields a
permutation of the rows sorted ascending by `due_back`, and listing
`Author` rows with no explicit ordering yields a permutation of the rows
sorted ascending by `last_name`, as fixed by the two `Meta.ordering`
declarations. -/
theorem default_ordering_spec (li : List BookInstance) (la : List Author) :
    List.Pairwise (fun i j => dueBackLe i.due_back j.due_back = true)
      (bookInstanceDefaultListing li)
    ∧ (bookInstanceDefaultListing li).Perm li
    ∧ List.Pairwise (fun a b => a.last_name ≤ b.last_name) (authorDefaultListing la)
    ∧ (authorDefaultListing la).Perm la
    ∧ BookInstance.metaOrdering = ["due_back"]
    ∧ Author.metaOrdering = ["last_name"] := by
  refine ⟨?_, List.mergeSort_perm _ _, ?_, List.mergeSort_perm _ _, rfl, rfl⟩
  · exact @List.sorted_mergeSort BookInstance
      (fun i j => dueBackLe i.due_back j.due_back)
      (fun a b c hab hbc => dueBackLe_trans _ _ _ hab hbc)
      (fun a b => dueBackLe_total _ _) li
  · have h := @List.sorted_mergeSort Author
      (fun a b => decide (a.last_name ≤ b.last_name))
      (fun a b c hab hbc => by
        simp only [decide_eq_true_eq] at *
        exact le_trans hab hbc)
      (fun a b => by
        rw [Bool.or_eq_true]
        simp only [decide_eq_true_eq]
        exact le_total _ _) la
    exact h.imp (by simp only [decide_eq_true_eq]; exact fun hab => hab)

/-- C10: every derived property is deterministic in exactly the record
state it reads: `display_genre` depends only on the genre names,
`is_overdue` only on `due_back` and the current date, `BookInstance.__str__`
only on the id and the book, `Author.__str__` only on the two name fields,
and `get_absolute_url` only on the id. -/
theorem derived_deterministic :
    (∀ b1 b2 : Book, b1.genre.map Genre.name = b2.genre.map Genre.name →
        b1.display_genre = b2.display_genre)
    ∧ (∀ (i1 i2 : BookInstance) (t1 t2 : Date), i1.due_back = i2.due_back → t1 = t2 →
        i1.is_overdue t1 = i2.is_overdue t2)
    ∧ (∀ i1 i2 : BookInstance, i1.id = i2.id → i1.book = i2.book → i1.str = i2.str)
    ∧ (∀ a1 a2 : Author, a1.first_name = a2.first_name → a1.last_name = a2.last_name →
        a1.str = a2.str)
    ∧ (∀ (reverse : String → List String → String) (b1 b2 : Book), b1.id = b2.id →
        Book.get_absolute_url reverse b1 = Book.get_absolute_url reverse b2) := by
  refine ⟨?_, ?_, ?_, ?_, ?_⟩
  · intro b1 b2 h
    have hk : (b1.genre.take 3).map Genre.name = (b2.genre.take 3).map Genre.name := by
      rw [List.map_take, List.map_take, h]
    simp only [Book.display_genre, hk]
  · intro i1 i2 t1 t2 h ht
    subst ht
    simp only [BookInstance.is_overdue, h]
  · intro i1 i2 hid hb
    simp only [BookInstance.str, hid, hb]
  · intro a1 a2 h1 h2
    simp only [Author.str, h1, h2]
  · intro reverse b1 b2 h
    simp only [Book.get_absolute_url, h]

/-- Witness for C10: two books differing in id, title, summary and isbn but
with equal genre name lists have equal `display_genre`. -/
theorem derived_deterministic_witness :
    Book.display_genre ⟨1, "A", none, "s1", "i1", [⟨"Poetry"⟩], none⟩
      = Book.display_genre ⟨2, "B", none, "s2", "i2", [⟨"Poetry"⟩], none⟩ :=
  derived_deterministic.1 _ _ rfl

end LocalLibrary
